import Mathlib

/-!
Shallow embedding of the afterimage GBA-core sources (src/cpu.rs, src/memory.rs).
Machine integers (u32/u16/u8) are modelled as Nat with explicit `% 2^w` at the
points where the Rust source performs a wrapping operation or an `as` cast.
Plain (non-wrapping) u32 additions of the source, which cannot overflow in any
reachable state, are modelled as plain Nat addition.  Signed casts (`as i32`,
`as i16`) are modelled by explicit two's-complement reinterpretation on Int.
-/

/-- Reinterpret the low 32 bits of a natural number as a signed (two's
complement) 32-bit integer, as the Rust cast `as i32` does. -/
def i32_of_bits (n : Nat) : Int :=
  if n % 2 ^ 32 < 2 ^ 31 then ((n % 2 ^ 32 : Nat) : Int)
  else ((n % 2 ^ 32 : Nat) : Int) - 2 ^ 32

/-- Reinterpret the low 16 bits of a natural number as a signed (two's
complement) 16-bit integer, as the Rust cast `as i16` does. -/
def i16_of_bits (n : Nat) : Int :=
  if n % 2 ^ 16 < 2 ^ 15 then ((n % 2 ^ 16 : Nat) : Int)
  else ((n % 2 ^ 16 : Nat) : Int) - 2 ^ 16

/-- The Rust cast `as u32` applied to a signed integer value: take the value
modulo `2^32` (Int.emod is non-negative for a positive modulus). -/
def u32_of_int (i : Int) : Nat := (i % 2 ^ 32).toNat

/-- Rust `u32::wrapping_add`. -/
def u32_wrapping_add (a b : Nat) : Nat := (a + b) % 2 ^ 32

/-- Rust `u32::wrapping_sub`. -/
def u32_wrapping_sub (a b : Nat) : Nat := (a + (2 ^ 32 - b % 2 ^ 32)) % 2 ^ 32

/-- Rust `u32::rotate_right`. -/
def u32_rotate_right (x n : Nat) : Nat :=
  let m := n % 32
  if m = 0 then x % 2 ^ 32
  else ((x % 2 ^ 32) >>> m) ||| (((x % 2 ^ 32) <<< (32 - m)) % 2 ^ 32)

/-- The memory bus of src/memory.rs: seven owned regions plus the cartridge
image.  The fixed-size regions are modelled as functions from byte offset to
byte value (every access in the source is masked into bounds, so the length
never matters); the variable-length cartridge image is a byte list. -/
structure Memory where
  bios : Nat → Nat
  ewram : Nat → Nat
  iwram : Nat → Nat
  vram : Nat → Nat
  palette_ram : Nat → Nat
  oam : Nat → Nat
  rom : List Nat

/-- Memory::new — all regions zero-initialized, empty cartridge image. -/
def Memory.new : Memory where
  bios := fun _ => 0
  ewram := fun _ => 0
  iwram := fun _ => 0
  vram := fun _ => 0
  palette_ram := fun _ => 0
  oam := fun _ => 0
  rom := []

/-- Memory::read_u8 — region dispatch in source order, each region indexed by
the address masked with the region's mask; cartridge reads past the image end
and reads outside every window return the 0xFF sentinel; the I/O window reads
as 0. -/
def Memory.read_u8 (m : Memory) (address : Nat) : Nat :=
  if address ≤ 0x00003FFF then m.bios (address &&& 0x3FFF)
  else if 0x02000000 ≤ address ∧ address ≤ 0x0203FFFF then m.ewram (address &&& 0x3FFFF)
  else if 0x03000000 ≤ address ∧ address ≤ 0x03007FFF then m.iwram (address &&& 0x7FFF)
  else if 0x06000000 ≤ address ∧ address ≤ 0x06017FFF then m.vram (address &&& 0x17FFF)
  else if 0x05000000 ≤ address ∧ address ≤ 0x050003FF then m.palette_ram (address &&& 0x3FF)
  else if 0x07000000 ≤ address ∧ address ≤ 0x070003FF then m.oam (address &&& 0x3FF)
  else if 0x08000000 ≤ address ∧ address ≤ 0x09FFFFFF then
    let rom_addr := address - 0x08000000
    if rom_addr < m.rom.length then m.rom.getD rom_addr 0 else 0xFF
  else if 0x04000000 ≤ address ∧ address ≤ 0x040003FF then 0
  else 0xFF

/-- Memory::read_u16 — two byte reads composed little-endian. -/
def Memory.read_u16 (m : Memory) (address : Nat) : Nat :=
  let low := m.read_u8 address
  let high := m.read_u8 (address + 1)
  low ||| (high <<< 8)

/-- Memory::read_u32 — two half reads composed little-endian. -/
def Memory.read_u32 (m : Memory) (address : Nat) : Nat :=
  let low := m.read_u16 address
  let high := m.read_u16 (address + 2)
  low ||| (high <<< 16)

/-- Memory::write_u8 — region dispatch in source order; bios, cartridge ROM
and unmapped addresses have no arm and are silently discarded; the I/O window
discards its byte. -/
def Memory.write_u8 (m : Memory) (address : Nat) (value : Nat) : Memory :=
  if 0x02000000 ≤ address ∧ address ≤ 0x0203FFFF then
    { m with ewram := fun i => if i = address &&& 0x3FFFF then value else m.ewram i }
  else if 0x03000000 ≤ address ∧ address ≤ 0x03007FFF then
    { m with iwram := fun i => if i = address &&& 0x7FFF then value else m.iwram i }
  else if 0x06000000 ≤ address ∧ address ≤ 0x06017FFF then
    { m with vram := fun i => if i = address &&& 0x17FFF then value else m.vram i }
  else if 0x05000000 ≤ address ∧ address ≤ 0x050003FF then
    { m with palette_ram := fun i => if i = address &&& 0x3FF then value else m.palette_ram i }
  else if 0x07000000 ≤ address ∧ address ≤ 0x070003FF then
    { m with oam := fun i => if i = address &&& 0x3FF then value else m.oam i }
  else if 0x04000000 ≤ address ∧ address ≤ 0x040003FF then m
  else m

/-- Memory::write_u16 — two dependent byte writes, low byte first (the `as u8`
casts are the `% 2^8`). -/
def Memory.write_u16 (m : Memory) (address : Nat) (value : Nat) : Memory :=
  (m.write_u8 address (value % 2 ^ 8)).write_u8 (address + 1) ((value >>> 8) % 2 ^ 8)

/-- Memory::write_u32 — two dependent half writes, low half first (the `as u16`
casts are the `% 2^16`). -/
def Memory.write_u32 (m : Memory) (address : Nat) (value : Nat) : Memory :=
  (m.write_u16 address (value % 2 ^ 16)).write_u16 (address + 2) ((value >>> 16) % 2 ^ 16)

/-- The file-system effect consumed by Memory::load_rom, made explicit:
whether `File::open` succeeds, the bytes `read_to_end` obtains, and whether
`read_to_end` then reports an error.  Per the documented contract of
`Read::read_to_end`, bytes already read are appended to the buffer even when
the call then fails. -/
structure RomFile where
  openOk : Bool
  bytes : List Nat
  readErr : Bool

/-- Memory::load_rom — `File::open(path)?` early-returns on failure leaving
the state untouched; otherwise `self.rom.clear()` runs and `read_to_end`
appends the bytes it managed to read, so the old image is gone even when the
read then fails.  The Bool is the Result (true = Ok). -/
def Memory.load_rom (m : Memory) (file : RomFile) : Memory × Bool :=
  if file.openOk then
    ({ m with rom := file.bytes }, !file.readErr)
  else (m, false)

/-- The processor modes of src/cpu.rs (enum CpuMode). -/
inductive CpuMode where
  | User | Fiq | Irq | Supervisor | Abort | Undefined | System

/-- The CPU state of src/cpu.rs: thirteen general-purpose registers (the
`[u32; 13]` array, modelled as a function used at indices 0..12), dedicated
sp/lr/pc slots, the cpsr flags word, the five saved-flags slots, the mode and
the Thumb flag. -/
structure Cpu where
  registers : Nat → Nat
  sp : Nat
  lr : Nat
  pc : Nat
  cpsr : Nat
  spsr : Nat → Nat
  mode : CpuMode
  thumb_mode : Bool

/-- Cpu::new — reset state. -/
def Cpu.new : Cpu where
  registers := fun _ => 0
  sp := 0x03007F00
  lr := 0
  pc := 0x08000000
  cpsr := 0x1F
  spsr := fun _ => 0
  mode := CpuMode.System
  thumb_mode := false

/-- Cpu::get_register — indices 0..12 read the array, 13/14 the sp/lr slots,
15 reads the pipeline-advanced pc + 8, anything else reads 0. -/
def Cpu.get_register (cpu : Cpu) (reg : Nat) : Nat :=
  if reg ≤ 12 then cpu.registers reg
  else if reg = 13 then cpu.sp
  else if reg = 14 then cpu.lr
  else if reg = 15 then cpu.pc + 8
  else 0

/-- Cpu::set_register — indices 0..12 write the array, 13/14 the sp/lr slots,
15 stores the value with the two low bits masked off (`value & !0x3`),
anything else is discarded. -/
def Cpu.set_register (cpu : Cpu) (reg : Nat) (value : Nat) : Cpu :=
  if reg ≤ 12 then { cpu with registers := fun i => if i = reg then value else cpu.registers i }
  else if reg = 13 then { cpu with sp := value }
  else if reg = 14 then { cpu with lr := value }
  else if reg = 15 then { cpu with pc := value &&& 0xFFFFFFFC }
  else cpu

/-- Cpu::check_condition — the 16-code condition table over the N/Z/C/V bits
of cpsr (bits 31..28). -/
def Cpu.check_condition (cpu : Cpu) (condition : Nat) : Bool :=
  let n := (cpu.cpsr >>> 31) &&& 1 == 1
  let z := (cpu.cpsr >>> 30) &&& 1 == 1
  let c := (cpu.cpsr >>> 29) &&& 1 == 1
  let v := (cpu.cpsr >>> 28) &&& 1 == 1
  if condition = 0x0 then z
  else if condition = 0x1 then !z
  else if condition = 0x2 then c
  else if condition = 0x3 then !c
  else if condition = 0x4 then n
  else if condition = 0x5 then !n
  else if condition = 0x6 then v
  else if condition = 0x7 then !v
  else if condition = 0x8 then c && !z
  else if condition = 0x9 then !c || z
  else if condition = 0xA then n == v
  else if condition = 0xB then n != v
  else if condition = 0xC then !z && (n == v)
  else if condition = 0xD then z || (n != v)
  else if condition = 0xE then true
  else false

/-- Cpu::get_data_processing_operand — a rotated 8-bit immediate when bit 25
is set, otherwise the plain value of register rm (bits 3..0). -/
def Cpu.get_data_processing_operand (cpu : Cpu) (instruction : Nat) : Nat :=
  if (instruction >>> 25) &&& 1 = 1 then
    let imm := instruction &&& 0xFF
    let rotate := ((instruction >>> 8) &&& 0xF) * 2
    u32_rotate_right imm rotate
  else
    cpu.get_register (instruction &&& 0xF)

/-- Cpu::execute_branch — 24-bit offset sign-extended from bit 23, shifted
left 2 through an i32, added (with the +4 pipeline constant) to the
already-advanced pc; the link bit first saves the pre-branch pc into lr. -/
def Cpu.execute_branch (cpu : Cpu) (instruction : Nat) : Cpu :=
  let offset := instruction &&& 0xFFFFFF
  let offset := if offset &&& 0x800000 ≠ 0 then offset ||| 0xFF000000 else offset
  let offset := u32_of_int (i32_of_bits offset * 4)
  let cpu := if (instruction >>> 24) &&& 1 = 1 then { cpu with lr := cpu.pc } else cpu
  { cpu with pc := u32_of_int (i32_of_bits cpu.pc + i32_of_bits offset + 4) }

/-- The offset of a single data transfer: zero when bit 25 is set (register
forms unimplemented in the source), else the 12-bit immediate. -/
def sdt_offset (instruction : Nat) : Nat :=
  if (instruction >>> 25) &&& 1 = 1 then 0 else instruction &&& 0xFFF

/-- The signed offset of a single data transfer: the offset itself when the
up bit (23) is set, else its wrapping negation (`0u32.wrapping_sub(offset)`). -/
def sdt_signed_offset (instruction : Nat) : Nat :=
  if (instruction >>> 23) &&& 1 = 1 then sdt_offset instruction
  else u32_wrapping_sub 0 (sdt_offset instruction)

/-- The effective address of a single data transfer: base plus signed offset
when pre-indexing (bit 24), else the un-offset base. -/
def Cpu.sdt_address (cpu : Cpu) (instruction : Nat) : Nat :=
  let base := cpu.get_register ((instruction >>> 16) &&& 0xF)
  if (instruction >>> 24) &&& 1 = 1 then u32_wrapping_add base (sdt_signed_offset instruction)
  else base

/-- Cpu::execute_single_data_transfer — load/store of byte/word at the
effective address, with post-index or explicit write-back updating the base
register afterwards. -/
def Cpu.execute_single_data_transfer (cpu : Cpu) (instruction : Nat) (memory : Memory) :
    Cpu × Memory :=
  let load := (instruction >>> 20) &&& 1 == 1
  let byte := (instruction >>> 22) &&& 1 == 1
  let pre := (instruction >>> 24) &&& 1 == 1
  let writeback := (instruction >>> 21) &&& 1 == 1
  let rd := (instruction >>> 12) &&& 0xF
  let rn := (instruction >>> 16) &&& 0xF
  let base := cpu.get_register rn
  let address := cpu.sdt_address instruction
  let res :=
    if load then
      let value := if byte then memory.read_u8 address else memory.read_u32 address
      (cpu.set_register rd value, memory)
    else
      let value := cpu.get_register rd
      (cpu, if byte then memory.write_u8 address (value % 2 ^ 8)
            else memory.write_u32 address value)
  if !pre || writeback then
    let new_base := if pre then address else u32_wrapping_add base (sdt_signed_offset instruction)
    (res.1.set_register rn new_base, res.2)
  else res

/-- Cpu::execute_arm — condition gate, then branch family, then single data
transfer family, then the partial data-processing table (mov/add/sub/cmp). -/
def Cpu.execute_arm (cpu : Cpu) (instruction : Nat) (memory : Memory) : Cpu × Memory :=
  if cpu.check_condition ((instruction >>> 28) &&& 0xF) = false then (cpu, memory)
  else if (instruction >>> 25) &&& 0x7 = 0x5 then (cpu.execute_branch instruction, memory)
  else if (instruction >>> 26) &&& 0x3 = 0x1 then cpu.execute_single_data_transfer instruction memory
  else
    let opcode := (instruction >>> 21) &&& 0xF
    if opcode = 0xD then
      let rd := (instruction >>> 12) &&& 0xF
      let operand := cpu.get_data_processing_operand instruction
      (cpu.set_register rd operand, memory)
    else if opcode = 0x4 then
      let rd := (instruction >>> 12) &&& 0xF
      let rn := (instruction >>> 16) &&& 0xF
      let operand := cpu.get_data_processing_operand instruction
      (cpu.set_register rd (u32_wrapping_add (cpu.get_register rn) operand), memory)
    else if opcode = 0x2 then
      let rd := (instruction >>> 12) &&& 0xF
      let rn := (instruction >>> 16) &&& 0xF
      let operand := cpu.get_data_processing_operand instruction
      (cpu.set_register rd (u32_wrapping_sub (cpu.get_register rn) operand), memory)
    else if opcode = 0xA then
      let rn := (instruction >>> 16) &&& 0xF
      let operand := cpu.get_data_processing_operand instruction
      let rn_val := cpu.get_register rn
      let result := u32_wrapping_sub rn_val operand
      let cpsr := cpu.cpsr &&& 0x0FFFFFFF
      let cpsr := if result = 0 then cpsr ||| (1 <<< 30) else cpsr
      let cpsr := if result &&& 0x80000000 ≠ 0 then cpsr ||| (1 <<< 31) else cpsr
      let cpsr := if rn_val ≥ operand then cpsr ||| (1 <<< 29) else cpsr
      ({ cpu with cpsr := cpsr }, memory)
    else (cpu, memory)

/-- Cpu::execute_thumb — the five implemented Thumb formats (unconditional
branch, conditional branch, the two long-branch-with-link halves and
move-immediate into a low register). -/
def Cpu.execute_thumb (cpu : Cpu) (instruction : Nat) (memory : Memory) : Cpu × Memory :=
  let opcode := (instruction >>> 11) &&& 0x1F
  if opcode = 0x1C then
    let offset := instruction &&& 0x7FF
    let offset := if offset &&& 0x400 ≠ 0 then offset ||| 0xF800 else offset
    let off := i16_of_bits ((offset * 2) % 2 ^ 16)
    ({ cpu with pc := u32_of_int (i32_of_bits cpu.pc + off + 2) }, memory)
  else if opcode = 0x1A ∨ opcode = 0x1B then
    let condition := (instruction >>> 8) &&& 0xF
    if condition ≠ 0xF ∧ cpu.check_condition condition = true then
      let offset := instruction &&& 0xFF
      let offset := if offset &&& 0x80 ≠ 0 then offset ||| 0xFF00 else offset
      let off := i16_of_bits ((offset * 2) % 2 ^ 16)
      ({ cpu with pc := u32_of_int (i32_of_bits cpu.pc + off + 2) }, memory)
    else (cpu, memory)
  else if opcode = 0x1E then
    let offset_high := instruction &&& 0x7FF
    let full_offset := offset_high <<< 12
    let full_offset := if offset_high &&& 0x400 ≠ 0 then full_offset ||| 0xFF800000 else full_offset
    ({ cpu with lr := u32_of_int (i32_of_bits cpu.pc + i32_of_bits full_offset + 2) }, memory)
  else if opcode = 0x1F then
    let offset_low := instruction &&& 0x7FF
    let target := cpu.lr + (offset_low <<< 1)
    ({ cpu with lr := cpu.pc ||| 1, pc := target }, memory)
  else if opcode = 0x4 then
    let rd := (instruction >>> 8) &&& 0x7
    let imm := instruction &&& 0xFF
    ({ cpu with registers := fun i => if i = rd then imm else cpu.registers i }, memory)
  else (cpu, memory)

/-- Cpu::step — fetch at pc with the active encoding's width, advance pc by
4 (ARM) or 2 (Thumb), then dispatch to the matching decoder. -/
def Cpu.step (cpu : Cpu) (memory : Memory) : Cpu × Memory :=
  let instruction := if cpu.thumb_mode then memory.read_u16 cpu.pc else memory.read_u32 cpu.pc
  let cpu := { cpu with pc := cpu.pc + (if cpu.thumb_mode then 2 else 4) }
  if cpu.thumb_mode then cpu.execute_thumb instruction memory
  else cpu.execute_arm instruction memory

/-- Masking with a full low-bit mask is reduction modulo the corresponding
power of two (instance of Nat.and_pow_two_sub_one_eq_mod at the literal
masks used by src/memory.rs). -/
theorem land_0x3FFF (a : Nat) : a &&& 0x3FFF = a % 0x4000 := by
  have h := Nat.and_pow_two_sub_one_eq_mod a 14
  norm_num at h
  exact h

theorem land_0x3FFFF (a : Nat) : a &&& 0x3FFFF = a % 0x40000 := by
  have h := Nat.and_pow_two_sub_one_eq_mod a 18
  norm_num at h
  exact h

theorem land_0x7FFF (a : Nat) : a &&& 0x7FFF = a % 0x8000 := by
  have h := Nat.and_pow_two_sub_one_eq_mod a 15
  norm_num at h
  exact h

theorem land_0x3FF (a : Nat) : a &&& 0x3FF = a % 0x400 := by
  have h := Nat.and_pow_two_sub_one_eq_mod a 10
  norm_num at h
  exact h

/-- A mask below 2^k only looks at the low k bits of the other operand. -/
theorem land_eq_mod_land (a m k : Nat) (hm : m < 2 ^ k) : a &&& m = (a % 2 ^ k) &&& m := by
  apply Nat.eq_of_testBit_eq
  intro i
  simp only [Nat.testBit_and, Nat.testBit_mod_two_pow]
  by_cases hik : i < k
  · simp [hik]
  · have hmi : m.testBit i = false :=
      Nat.testBit_lt_two_pow
        (lt_of_lt_of_le hm (Nat.pow_le_pow_right (by norm_num) (le_of_not_lt hik)))
    simp [hmi, hik]

/-- The vram mask 0x17FFF (the size 0x18000 is not a power of two): on
offsets below the region size it subtracts 0x8000 on the middle window and is
the identity elsewhere. -/
theorem land_0x17FFF (r : Nat) (h : r < 0x18000) :
    r &&& 0x17FFF = if 0x8000 ≤ r ∧ r < 0x10000 then r - 0x8000 else r := by
  have hsplit : (0x17FFF : Nat) = 0x10000 ||| 0x7FFF := by decide
  rw [hsplit, Nat.and_or_distrib_left]
  have h16 : r &&& 0x10000 = (r.testBit 16).toNat * 0x10000 := by
    have h' := Nat.and_two_pow r 16
    norm_num at h'
    exact h'
  have htb : r.testBit 16 = decide (r / 2 ^ 16 % 2 = 1) := Nat.testBit_to_div_mod
  rw [land_0x7FFF, h16]
  by_cases hr : 0x10000 ≤ r
  · have htrue : r.testBit 16 = true := by
      rw [htb]
      simp only [decide_eq_true_eq]
      omega
    rw [htrue]
    have hor := Nat.mul_add_lt_is_or (show r % 0x8000 < 2 ^ 16 by omega) 1
    norm_num at hor
    norm_num [← hor]
    rw [if_neg (by omega)]
    omega
  · have hfalse : r.testBit 16 = false := by
      rw [htb]
      simp only [decide_eq_false_iff_not]
      omega
    rw [hfalse]
    norm_num
    split_ifs <;> omega

/-- Disjoint or is addition: composing a low chunk below 2^k with a shifted
high chunk. -/
theorem lor_shift_eq_add (x y k : Nat) (hx : x < 2 ^ k) :
    x ||| (y <<< k) = 2 ^ k * y + x := by
  rw [Nat.shiftLeft_eq, Nat.lor_comm, Nat.mul_comm y (2 ^ k)]
  exact (Nat.mul_add_lt_is_or hx y).symm

/-- A single high bit tested through a mask. -/
theorem land_msb_ne_zero (x : Nat) : (x &&& 0x80000000 ≠ 0) ↔ x.testBit 31 = true := by
  have h := Nat.and_two_pow x 31
  norm_num at h
  rw [h]
  cases htb : x.testBit 31 <;> simp

/-- Reading inside the external-work-RAM window selects the ewram buffer at
the masked offset. -/
theorem read_u8_ewram (m : Memory) (a : Nat) (h1 : 0x02000000 ≤ a) (h2 : a ≤ 0x0203FFFF) :
    m.read_u8 a = m.ewram (a % 0x40000) := by
  unfold Memory.read_u8
  rw [if_neg (by omega), if_pos ⟨h1, h2⟩, land_0x3FFFF]

theorem read_u8_iwram (m : Memory) (a : Nat) (h1 : 0x03000000 ≤ a) (h2 : a ≤ 0x03007FFF) :
    m.read_u8 a = m.iwram (a % 0x8000) := by
  unfold Memory.read_u8
  repeat rw [if_neg (by omega)]
  rw [if_pos ⟨h1, h2⟩, land_0x7FFF]

theorem read_u8_vram (m : Memory) (a : Nat) (h1 : 0x06000000 ≤ a) (h2 : a ≤ 0x06017FFF) :
    m.read_u8 a = m.vram (a &&& 0x17FFF) := by
  unfold Memory.read_u8
  repeat rw [if_neg (by omega)]
  rw [if_pos ⟨h1, h2⟩]

theorem read_u8_palette (m : Memory) (a : Nat) (h1 : 0x05000000 ≤ a) (h2 : a ≤ 0x050003FF) :
    m.read_u8 a = m.palette_ram (a % 0x400) := by
  unfold Memory.read_u8
  repeat rw [if_neg (by omega)]
  rw [if_pos ⟨h1, h2⟩, land_0x3FF]

theorem read_u8_oam (m : Memory) (a : Nat) (h1 : 0x07000000 ≤ a) (h2 : a ≤ 0x070003FF) :
    m.read_u8 a = m.oam (a % 0x400) := by
  unfold Memory.read_u8
  repeat rw [if_neg (by omega)]
  rw [if_pos ⟨h1, h2⟩, land_0x3FF]

/-- Writing inside the external-work-RAM window updates the ewram buffer at
the masked offset. -/
theorem write_u8_ewram (m : Memory) (a v : Nat) (h1 : 0x02000000 ≤ a) (h2 : a ≤ 0x0203FFFF) :
    m.write_u8 a v = { m with ewram := fun i => if i = a % 0x40000 then v else m.ewram i } := by
  unfold Memory.write_u8
  rw [if_pos ⟨h1, h2⟩, land_0x3FFFF]

theorem write_u8_iwram (m : Memory) (a v : Nat) (h1 : 0x03000000 ≤ a) (h2 : a ≤ 0x03007FFF) :
    m.write_u8 a v = { m with iwram := fun i => if i = a % 0x8000 then v else m.iwram i } := by
  unfold Memory.write_u8
  repeat rw [if_neg (by omega)]
  rw [if_pos ⟨h1, h2⟩, land_0x7FFF]

theorem write_u8_vram (m : Memory) (a v : Nat) (h1 : 0x06000000 ≤ a) (h2 : a ≤ 0x06017FFF) :
    m.write_u8 a v = { m with vram := fun i => if i = a &&& 0x17FFF then v else m.vram i } := by
  unfold Memory.write_u8
  repeat rw [if_neg (by omega)]
  rw [if_pos ⟨h1, h2⟩]

theorem write_u8_palette (m : Memory) (a v : Nat) (h1 : 0x05000000 ≤ a) (h2 : a ≤ 0x050003FF) :
    m.write_u8 a v =
      { m with palette_ram := fun i => if i = a % 0x400 then v else m.palette_ram i } := by
  unfold Memory.write_u8
  repeat rw [if_neg (by omega)]
  rw [if_pos ⟨h1, h2⟩, land_0x3FF]

theorem write_u8_oam (m : Memory) (a v : Nat) (h1 : 0x07000000 ≤ a) (h2 : a ≤ 0x070003FF) :
    m.write_u8 a v = { m with oam := fun i => if i = a % 0x400 then v else m.oam i } := by
  unfold Memory.write_u8
  repeat rw [if_neg (by omega)]
  rw [if_pos ⟨h1, h2⟩, land_0x3FF]

/-- The vram in-window effective offset, in piecewise-linear form. -/
theorem vram_eff (a : Nat) (h1 : 0x06000000 ≤ a) (h2 : a ≤ 0x06017FFF) :
    a &&& 0x17FFF =
      if 0x8000 ≤ a - 0x06000000 ∧ a - 0x06000000 < 0x10000 then a - 0x06000000 - 0x8000
      else a - 0x06000000 := by
  rw [land_eq_mod_land a 0x17FFF 17 (by norm_num)]
  have hmod : a % 2 ^ 17 = a - 0x06000000 := by omega
  rw [hmod, land_0x17FFF (a - 0x06000000) (by omega)]

theorem rt_ewram_u32 (m : Memory) (a v : Nat)
    (h1 : 0x02000000 ≤ a) (h2 : a + 3 ≤ 0x0203FFFF) (hv : v < 2 ^ 32) :
    (m.write_u32 a v).read_u32 a = v := by
  unfold Memory.write_u32 Memory.write_u16 Memory.read_u32 Memory.read_u16
  rw [write_u8_ewram _ _ _ (by omega) (by omega), write_u8_ewram _ _ _ (by omega) (by omega),
    write_u8_ewram _ _ _ (by omega) (by omega), write_u8_ewram _ _ _ (by omega) (by omega)]
  rw [read_u8_ewram _ _ (by omega) (by omega), read_u8_ewram _ _ (by omega) (by omega),
    read_u8_ewram _ _ (by omega) (by omega), read_u8_ewram _ _ (by omega) (by omega)]
  have d01 : a % 0x40000 ≠ (a + 1) % 0x40000 := by omega
  have d02 : a % 0x40000 ≠ (a + 2) % 0x40000 := by omega
  have d03 : a % 0x40000 ≠ (a + 3) % 0x40000 := by omega
  have d12 : (a + 1) % 0x40000 ≠ (a + 2) % 0x40000 := by omega
  have d13 : (a + 1) % 0x40000 ≠ (a + 3) % 0x40000 := by omega
  have d23 : (a + 2) % 0x40000 ≠ (a + 3) % 0x40000 := by omega
  simp only [d01, d02, d03, d12, d13, d23, if_false, if_true, eq_self_iff_true, ite_true,
    ite_false, Ne.symm d01, Ne.symm d02, Ne.symm d03, Ne.symm d12, Ne.symm d13, Ne.symm d23]
  rw [lor_shift_eq_add _ _ 8 (by omega), lor_shift_eq_add _ _ 8 (by omega),
    lor_shift_eq_add _ _ 16 (by omega)]
  simp only [Nat.shiftRight_eq_div_pow]
  omega

theorem rt_ewram_u16 (m : Memory) (a v : Nat)
    (h1 : 0x02000000 ≤ a) (h2 : a + 1 ≤ 0x0203FFFF) (hv : v < 2 ^ 16) :
    (m.write_u16 a v).read_u16 a = v := by
  unfold Memory.write_u16 Memory.read_u16
  rw [write_u8_ewram _ _ _ (by omega) (by omega), write_u8_ewram _ _ _ (by omega) (by omega)]
  rw [read_u8_ewram _ _ (by omega) (by omega), read_u8_ewram _ _ (by omega) (by omega)]
  have d01 : a % 0x40000 ≠ (a + 1) % 0x40000 := by omega
  simp only [d01, Ne.symm d01, if_false, if_true, eq_self_iff_true, ite_true, ite_false]
  rw [lor_shift_eq_add _ _ 8 (by omega)]
  simp only [Nat.shiftRight_eq_div_pow]
  omega

theorem rt_ewram_u8 (m : Memory) (a v : Nat)
    (h1 : 0x02000000 ≤ a) (h2 : a ≤ 0x0203FFFF) :
    (m.write_u8 a v).read_u8 a = v := by
  rw [write_u8_ewram _ _ _ h1 h2, read_u8_ewram _ _ h1 h2]
  simp

theorem rt_iwram_u32 (m : Memory) (a v : Nat)
    (h1 : 0x03000000 ≤ a) (h2 : a + 3 ≤ 0x03007FFF) (hv : v < 2 ^ 32) :
    (m.write_u32 a v).read_u32 a = v := by
  unfold Memory.write_u32 Memory.write_u16 Memory.read_u32 Memory.read_u16
  rw [write_u8_iwram _ _ _ (by omega) (by omega), write_u8_iwram _ _ _ (by omega) (by omega),
    write_u8_iwram _ _ _ (by omega) (by omega), write_u8_iwram _ _ _ (by omega) (by omega)]
  rw [read_u8_iwram _ _ (by omega) (by omega), read_u8_iwram _ _ (by omega) (by omega),
    read_u8_iwram _ _ (by omega) (by omega), read_u8_iwram _ _ (by omega) (by omega)]
  have d01 : a % 0x8000 ≠ (a + 1) % 0x8000 := by omega
  have d02 : a % 0x8000 ≠ (a + 2) % 0x8000 := by omega
  have d03 : a % 0x8000 ≠ (a + 3) % 0x8000 := by omega
  have d12 : (a + 1) % 0x8000 ≠ (a + 2) % 0x8000 := by omega
  have d13 : (a + 1) % 0x8000 ≠ (a + 3) % 0x8000 := by omega
  have d23 : (a + 2) % 0x8000 ≠ (a + 3) % 0x8000 := by omega
  simp only [d01, d02, d03, d12, d13, d23, if_false, if_true, eq_self_iff_true, ite_true,
    ite_false, Ne.symm d01, Ne.symm d02, Ne.symm d03, Ne.symm d12, Ne.symm d13, Ne.symm d23]
  rw [lor_shift_eq_add _ _ 8 (by omega), lor_shift_eq_add _ _ 8 (by omega),
    lor_shift_eq_add _ _ 16 (by omega)]
  simp only [Nat.shiftRight_eq_div_pow]
  omega

theorem rt_iwram_u16 (m : Memory) (a v : Nat)
    (h1 : 0x03000000 ≤ a) (h2 : a + 1 ≤ 0x03007FFF) (hv : v < 2 ^ 16) :
    (m.write_u16 a v).read_u16 a = v := by
  unfold Memory.write_u16 Memory.read_u16
  rw [write_u8_iwram _ _ _ (by omega) (by omega), write_u8_iwram _ _ _ (by omega) (by omega)]
  rw [read_u8_iwram _ _ (by omega) (by omega), read_u8_iwram _ _ (by omega) (by omega)]
  have d01 : a % 0x8000 ≠ (a + 1) % 0x8000 := by omega
  simp only [d01, Ne.symm d01, if_false, if_true, eq_self_iff_true, ite_true, ite_false]
  rw [lor_shift_eq_add _ _ 8 (by omega)]
  simp only [Nat.shiftRight_eq_div_pow]
  omega

theorem rt_iwram_u8 (m : Memory) (a v : Nat)
    (h1 : 0x03000000 ≤ a) (h2 : a ≤ 0x03007FFF) :
    (m.write_u8 a v).read_u8 a = v := by
  rw [write_u8_iwram _ _ _ h1 h2, read_u8_iwram _ _ h1 h2]
  simp

theorem rt_palette_u32 (m : Memory) (a v : Nat)
    (h1 : 0x05000000 ≤ a) (h2 : a + 3 ≤ 0x050003FF) (hv : v < 2 ^ 32) :
    (m.write_u32 a v).read_u32 a = v := by
  unfold Memory.write_u32 Memory.write_u16 Memory.read_u32 Memory.read_u16
  rw [write_u8_palette _ _ _ (by omega) (by omega), write_u8_palette _ _ _ (by omega) (by omega),
    write_u8_palette _ _ _ (by omega) (by omega), write_u8_palette _ _ _ (by omega) (by omega)]
  rw [read_u8_palette _ _ (by omega) (by omega), read_u8_palette _ _ (by omega) (by omega),
    read_u8_palette _ _ (by omega) (by omega), read_u8_palette _ _ (by omega) (by omega)]
  have d01 : a % 0x400 ≠ (a + 1) % 0x400 := by omega
  have d02 : a % 0x400 ≠ (a + 2) % 0x400 := by omega
  have d03 : a % 0x400 ≠ (a + 3) % 0x400 := by omega
  have d12 : (a + 1) % 0x400 ≠ (a + 2) % 0x400 := by omega
  have d13 : (a + 1) % 0x400 ≠ (a + 3) % 0x400 := by omega
  have d23 : (a + 2) % 0x400 ≠ (a + 3) % 0x400 := by omega
  simp only [d01, d02, d03, d12, d13, d23, if_false, if_true, eq_self_iff_true, ite_true,
    ite_false, Ne.symm d01, Ne.symm d02, Ne.symm d03, Ne.symm d12, Ne.symm d13, Ne.symm d23]
  rw [lor_shift_eq_add _ _ 8 (by omega), lor_shift_eq_add _ _ 8 (by omega),
    lor_shift_eq_add _ _ 16 (by omega)]
  simp only [Nat.shiftRight_eq_div_pow]
  omega

theorem rt_palette_u16 (m : Memory) (a v : Nat)
    (h1 : 0x05000000 ≤ a) (h2 : a + 1 ≤ 0x050003FF) (hv : v < 2 ^ 16) :
    (m.write_u16 a v).read_u16 a = v := by
  unfold Memory.write_u16 Memory.read_u16
  rw [write_u8_palette _ _ _ (by omega) (by omega), write_u8_palette _ _ _ (by omega) (by omega)]
  rw [read_u8_palette _ _ (by omega) (by omega), read_u8_palette _ _ (by omega) (by omega)]
  have d01 : a % 0x400 ≠ (a + 1) % 0x400 := by omega
  simp only [d01, Ne.symm d01, if_false, if_true, eq_self_iff_true, ite_true, ite_false]
  rw [lor_shift_eq_add _ _ 8 (by omega)]
  simp only [Nat.shiftRight_eq_div_pow]
  omega

theorem rt_palette_u8 (m : Memory) (a v : Nat)
    (h1 : 0x05000000 ≤ a) (h2 : a ≤ 0x050003FF) :
    (m.write_u8 a v).read_u8 a = v := by
  rw [write_u8_palette _ _ _ h1 h2, read_u8_palette _ _ h1 h2]
  simp

theorem rt_oam_u32 (m : Memory) (a v : Nat)
    (h1 : 0x07000000 ≤ a) (h2 : a + 3 ≤ 0x070003FF) (hv : v < 2 ^ 32) :
    (m.write_u32 a v).read_u32 a = v := by
  unfold Memory.write_u32 Memory.write_u16 Memory.read_u32 Memory.read_u16
  rw [write_u8_oam _ _ _ (by omega) (by omega), write_u8_oam _ _ _ (by omega) (by omega),
    write_u8_oam _ _ _ (by omega) (by omega), write_u8_oam _ _ _ (by omega) (by omega)]
  rw [read_u8_oam _ _ (by omega) (by omega), read_u8_oam _ _ (by omega) (by omega),
    read_u8_oam _ _ (by omega) (by omega), read_u8_oam _ _ (by omega) (by omega)]
  have d01 : a % 0x400 ≠ (a + 1) % 0x400 := by omega
  have d02 : a % 0x400 ≠ (a + 2) % 0x400 := by omega
  have d03 : a % 0x400 ≠ (a + 3) % 0x400 := by omega
  have d12 : (a + 1) % 0x400 ≠ (a + 2) % 0x400 := by omega
  have d13 : (a + 1) % 0x400 ≠ (a + 3) % 0x400 := by omega
  have d23 : (a + 2) % 0x400 ≠ (a + 3) % 0x400 := by omega
  simp only [d01, d02, d03, d12, d13, d23, if_false, if_true, eq_self_iff_true, ite_true,
    ite_false, Ne.symm d01, Ne.symm d02, Ne.symm d03, Ne.symm d12, Ne.symm d13, Ne.symm d23]
  rw [lor_shift_eq_add _ _ 8 (by omega), lor_shift_eq_add _ _ 8 (by omega),
    lor_shift_eq_add _ _ 16 (by omega)]
  simp only [Nat.shiftRight_eq_div_pow]
  omega

theorem rt_oam_u16 (m : Memory) (a v : Nat)
    (h1 : 0x07000000 ≤ a) (h2 : a + 1 ≤ 0x070003FF) (hv : v < 2 ^ 16) :
    (m.write_u16 a v).read_u16 a = v := by
  unfold Memory.write_u16 Memory.read_u16
  rw [write_u8_oam _ _ _ (by omega) (by omega), write_u8_oam _ _ _ (by omega) (by omega)]
  rw [read_u8_oam _ _ (by omega) (by omega), read_u8_oam _ _ (by omega) (by omega)]
  have d01 : a % 0x400 ≠ (a + 1) % 0x400 := by omega
  simp only [d01, Ne.symm d01, if_false, if_true, eq_self_iff_true, ite_true, ite_false]
  rw [lor_shift_eq_add _ _ 8 (by omega)]
  simp only [Nat.shiftRight_eq_div_pow]
  omega

theorem rt_oam_u8 (m : Memory) (a v : Nat)
    (h1 : 0x07000000 ≤ a) (h2 : a ≤ 0x070003FF) :
    (m.write_u8 a v).read_u8 a = v := by
  rw [write_u8_oam _ _ _ h1 h2, read_u8_oam _ _ h1 h2]
  simp

/-- Distinct nearby in-window vram addresses have distinct effective offsets
(the mask only collapses addresses 0x8000 apart). -/
theorem vram_eff_ne (a b : Nat) (ha1 : 0x06000000 ≤ a) (ha2 : a ≤ 0x06017FFF)
    (hb1 : 0x06000000 ≤ b) (hb2 : b ≤ 0x06017FFF) (hne : a ≠ b)
    (hc1 : b ≤ a + 3) (hc2 : a ≤ b + 3) :
    a &&& 0x17FFF ≠ b &&& 0x17FFF := by
  rw [vram_eff a ha1 ha2, vram_eff b hb1 hb2]
  split_ifs <;> omega

theorem rt_vram_u32 (m : Memory) (a v : Nat)
    (h1 : 0x06000000 ≤ a) (h2 : a + 3 ≤ 0x06017FFF) (hv : v < 2 ^ 32) :
    (m.write_u32 a v).read_u32 a = v := by
  unfold Memory.write_u32 Memory.write_u16 Memory.read_u32 Memory.read_u16
  rw [write_u8_vram _ _ _ (by omega) (by omega), write_u8_vram _ _ _ (by omega) (by omega),
    write_u8_vram _ _ _ (by omega) (by omega), write_u8_vram _ _ _ (by omega) (by omega)]
  rw [read_u8_vram _ _ (by omega) (by omega), read_u8_vram _ _ (by omega) (by omega),
    read_u8_vram _ _ (by omega) (by omega), read_u8_vram _ _ (by omega) (by omega)]
  have d01 : a &&& 0x17FFF ≠ (a + 1) &&& 0x17FFF :=
    vram_eff_ne _ _ (by omega) (by omega) (by omega) (by omega) (by omega) (by omega) (by omega)
  have d02 : a &&& 0x17FFF ≠ (a + 2) &&& 0x17FFF :=
    vram_eff_ne _ _ (by omega) (by omega) (by omega) (by omega) (by omega) (by omega) (by omega)
  have d03 : a &&& 0x17FFF ≠ (a + 3) &&& 0x17FFF :=
    vram_eff_ne _ _ (by omega) (by omega) (by omega) (by omega) (by omega) (by omega) (by omega)
  have d12 : (a + 1) &&& 0x17FFF ≠ (a + 2) &&& 0x17FFF :=
    vram_eff_ne _ _ (by omega) (by omega) (by omega) (by omega) (by omega) (by omega) (by omega)
  have d13 : (a + 1) &&& 0x17FFF ≠ (a + 3) &&& 0x17FFF :=
    vram_eff_ne _ _ (by omega) (by omega) (by omega) (by omega) (by omega) (by omega) (by omega)
  have d23 : (a + 2) &&& 0x17FFF ≠ (a + 3) &&& 0x17FFF :=
    vram_eff_ne _ _ (by omega) (by omega) (by omega) (by omega) (by omega) (by omega) (by omega)
  simp only [d01, d02, d03, d12, d13, d23, if_false, if_true, eq_self_iff_true, ite_true,
    ite_false, Ne.symm d01, Ne.symm d02, Ne.symm d03, Ne.symm d12, Ne.symm d13, Ne.symm d23]
  rw [lor_shift_eq_add _ _ 8 (by omega), lor_shift_eq_add _ _ 8 (by omega),
    lor_shift_eq_add _ _ 16 (by omega)]
  simp only [Nat.shiftRight_eq_div_pow]
  omega

theorem rt_vram_u16 (m : Memory) (a v : Nat)
    (h1 : 0x06000000 ≤ a) (h2 : a + 1 ≤ 0x06017FFF) (hv : v < 2 ^ 16) :
    (m.write_u16 a v).read_u16 a = v := by
  unfold Memory.write_u16 Memory.read_u16
  rw [write_u8_vram _ _ _ (by omega) (by omega), write_u8_vram _ _ _ (by omega) (by omega)]
  rw [read_u8_vram _ _ (by omega) (by omega), read_u8_vram _ _ (by omega) (by omega)]
  have d01 : a &&& 0x17FFF ≠ (a + 1) &&& 0x17FFF :=
    vram_eff_ne _ _ (by omega) (by omega) (by omega) (by omega) (by omega) (by omega) (by omega)
  simp only [d01, Ne.symm d01, if_false, if_true, eq_self_iff_true, ite_true, ite_false]
  rw [lor_shift_eq_add _ _ 8 (by omega)]
  simp only [Nat.shiftRight_eq_div_pow]
  omega

theorem rt_vram_u8 (m : Memory) (a v : Nat)
    (h1 : 0x06000000 ≤ a) (h2 : a ≤ 0x06017FFF) :
    (m.write_u8 a v).read_u8 a = v := by
  rw [write_u8_vram _ _ _ h1 h2, read_u8_vram _ _ h1 h2]
  simp

/-- An access whose last byte is k bytes past its first lies entirely inside
one of the five writable region windows (ewram, iwram, vram, palette, oam). -/
def inWritableRegion (a k : Nat) : Prop :=
  (0x02000000 ≤ a ∧ a + k ≤ 0x0203FFFF) ∨ (0x03000000 ≤ a ∧ a + k ≤ 0x03007FFF) ∨
  (0x06000000 ≤ a ∧ a + k ≤ 0x06017FFF) ∨ (0x05000000 ≤ a ∧ a + k ≤ 0x050003FF) ∨
  (0x07000000 ≤ a ∧ a + k ≤ 0x070003FF)

/-- C3 counterexample: the claim quantifies over every mapped region, but the
bios region (mapped, readable) has no write arm, so writeWord at address 0
is discarded and readWord returns the zero-initialized bios contents, not the
written value. -/
theorem C3_roundtrip_counterexample :
    (Memory.new.write_u32 0x00000000 1).read_u32 0x00000000 = 0 ∧ (0 : Nat) ≠ 1 := by
  decide

/-- C3 (amended): for every address whose byte/half/word access stays within
one of the five writable regions (ewram, iwram, vram, palette RAM, oam — the
mapped regions with a write arm; bios, cartridge ROM and the I/O window
discard writes), a write followed by a read of the same width at the same
address returns the written value, the half/word values being composed from
bytes least-significant-byte first. -/
theorem C3_roundtrip_writable (m : Memory) (a v : Nat) :
    (inWritableRegion a 3 → v < 2 ^ 32 → (m.write_u32 a v).read_u32 a = v) ∧
    (inWritableRegion a 1 → v < 2 ^ 16 → (m.write_u16 a v).read_u16 a = v) ∧
    (inWritableRegion a 0 → v < 2 ^ 8 → (m.write_u8 a v).read_u8 a = v) := by
  refine ⟨?_, ?_, ?_⟩
  · rintro (⟨h1, h2⟩ | ⟨h1, h2⟩ | ⟨h1, h2⟩ | ⟨h1, h2⟩ | ⟨h1, h2⟩) hv
    · exact rt_ewram_u32 m a v h1 h2 hv
    · exact rt_iwram_u32 m a v h1 h2 hv
    · exact rt_vram_u32 m a v h1 h2 hv
    · exact rt_palette_u32 m a v h1 h2 hv
    · exact rt_oam_u32 m a v h1 h2 hv
  · rintro (⟨h1, h2⟩ | ⟨h1, h2⟩ | ⟨h1, h2⟩ | ⟨h1, h2⟩ | ⟨h1, h2⟩) hv
    · exact rt_ewram_u16 m a v h1 h2 hv
    · exact rt_iwram_u16 m a v h1 h2 hv
    · exact rt_vram_u16 m a v h1 h2 hv
    · exact rt_palette_u16 m a v h1 h2 hv
    · exact rt_oam_u16 m a v h1 h2 hv
  · rintro (⟨h1, h2⟩ | ⟨h1, h2⟩ | ⟨h1, h2⟩ | ⟨h1, h2⟩ | ⟨h1, h2⟩) hv
    · exact rt_ewram_u8 m a v (by omega) (by omega)
    · exact rt_iwram_u8 m a v (by omega) (by omega)
    · exact rt_vram_u8 m a v (by omega) (by omega)
    · exact rt_palette_u8 m a v (by omega) (by omega)
    · exact rt_oam_u8 m a v (by omega) (by omega)

/-- C3 witness: the amended round-trip evaluated at a concrete in-region
address and value. -/
theorem C3_roundtrip_witness :
    inWritableRegion 0x02000010 3 ∧ 0xCAFEBABE < 2 ^ 32 ∧
    (Memory.new.write_u32 0x02000010 0xCAFEBABE).read_u32 0x02000010 = 0xCAFEBABE := by
  refine ⟨by unfold inWritableRegion; omega, by norm_num, ?_⟩
  exact (C3_roundtrip_writable Memory.new 0x02000010 0xCAFEBABE).1
    (by unfold inWritableRegion; omega) (by norm_num)

/-- C4 counterexample: for the ewram region (base 0x02000000, size 2^18) on a
fresh memory, a byte read at base + size hits no dispatch arm and returns the
0xFF sentinel, while the read at base returns the zero-initialized buffer
byte — the region does not mirror at base + size. -/
theorem C4_mirror_counterexample :
    Memory.new.read_u8 0x02040000 = 0xFF ∧ Memory.new.read_u8 0x02000000 = 0 ∧
    (0xFF : Nat) ≠ 0 := by
  decide

/-- C4 (amended): for every power-of-two-sized region (bios 2^14, ewram 2^18,
iwram 2^15, palette 2^10, oam 2^10, I/O 2^10) and every memory state, the
byte read at base + size falls outside every dispatch window and returns the
unmapped sentinel 0xFF; the size mask never mirrors past the window (it only
normalizes in-window addresses). -/
theorem C4_no_mirror (m : Memory) :
    m.read_u8 (0x00000000 + 0x4000) = 0xFF ∧ m.read_u8 (0x02000000 + 0x40000) = 0xFF ∧
    m.read_u8 (0x03000000 + 0x8000) = 0xFF ∧ m.read_u8 (0x05000000 + 0x400) = 0xFF ∧
    m.read_u8 (0x07000000 + 0x400) = 0xFF ∧ m.read_u8 (0x04000000 + 0x400) = 0xFF := by
  refine ⟨rfl, rfl, rfl, rfl, rfl, rfl⟩

/-- An address inside one of the eight dispatch windows of Memory::read_u8. -/
def mappedWindow (a : Nat) : Prop :=
  a ≤ 0x00003FFF ∨ (0x02000000 ≤ a ∧ a ≤ 0x0203FFFF) ∨
  (0x03000000 ≤ a ∧ a ≤ 0x03007FFF) ∨ (0x06000000 ≤ a ∧ a ≤ 0x06017FFF) ∨
  (0x05000000 ≤ a ∧ a ≤ 0x050003FF) ∨ (0x07000000 ≤ a ∧ a ≤ 0x070003FF) ∨
  (0x08000000 ≤ a ∧ a ≤ 0x09FFFFFF) ∨ (0x04000000 ≤ a ∧ a ≤ 0x040003FF)

/-- C5: at every address outside all mapped windows, a byte read returns the
0xFF sentinel and a byte write returns the memory state unchanged; neither
path signals an error. -/
theorem C5_unmapped (m : Memory) (a v : Nat) (h : ¬ mappedWindow a) :
    m.read_u8 a = 0xFF ∧ m.write_u8 a v = m := by
  unfold mappedWindow at h
  constructor
  · unfold Memory.read_u8
    repeat rw [if_neg (by omega)]
  · unfold Memory.write_u8
    repeat rw [if_neg (by omega)]

/-- C5 witness: the unmapped behaviour at the spec's example address
0x0A000000. -/
theorem C5_unmapped_witness :
    ¬ mappedWindow 0x0A000000 ∧
    Memory.new.read_u8 0x0A000000 = 0xFF ∧ Memory.new.write_u8 0x0A000000 0x12 = Memory.new := by
  refine ⟨by unfold mappedWindow; omega, ?_⟩
  exact C5_unmapped Memory.new 0x0A000000 0x12 (by unfold mappedWindow; omega)

/-- C10: every byte read in the memory-mapped I/O window 0x04000000..0x040003FF
returns 0 (not the 0xFF sentinel) and every byte write there leaves the memory
state unchanged. -/
theorem C10_io_window (m : Memory) (a v : Nat)
    (h1 : 0x04000000 ≤ a) (h2 : a ≤ 0x040003FF) :
    m.read_u8 a = 0 ∧ m.write_u8 a v = m := by
  constructor
  · unfold Memory.read_u8
    repeat rw [if_neg (by omega)]
    rw [if_pos ⟨h1, h2⟩]
  · unfold Memory.write_u8
    repeat rw [if_neg (by omega)]
    rw [if_pos ⟨h1, h2⟩]

/-- C10 witness: the I/O-window behaviour at its first and last addresses. -/
theorem C10_io_window_witness :
    0x04000000 ≤ 0x04000000 ∧ (0x04000000 : Nat) ≤ 0x040003FF ∧
    Memory.new.read_u8 0x04000000 = 0 ∧ Memory.new.write_u8 0x04000000 0xAB = Memory.new := by
  refine ⟨le_refl _, by norm_num, ?_⟩
  exact C10_io_window Memory.new 0x04000000 0xAB (le_refl _) (by norm_num)

/-- The flags word with the N/Z/C/V bits packed into bits 31..28. -/
def flagsWord (n z c v : Bool) : Nat :=
  (if n then 0x80000000 else 0) + (if z then 0x40000000 else 0) +
  (if c then 0x20000000 else 0) + (if v then 0x10000000 else 0)

/-- The condition truth table exactly as the specification states it
(EQ=Z, NE=not Z, CS=C, CC=not C, MI=N, PL=not N, VS=V, VC=not V, HI=C and not
Z, LS=not C or Z, GE=(N=V), LT=(N not= V), GT=not Z and (N=V), LE=Z or
(N not= V), AL=true, NV=false); stated from the spec's words, to be compared
with the source's Cpu::check_condition. -/
def spec_condition_table (cond : Nat) (n z c v : Bool) : Bool :=
  if cond = 0 then z
  else if cond = 1 then !z
  else if cond = 2 then c
  else if cond = 3 then !c
  else if cond = 4 then n
  else if cond = 5 then !n
  else if cond = 6 then v
  else if cond = 7 then !v
  else if cond = 8 then c && !z
  else if cond = 9 then !c || z
  else if cond = 10 then n == v
  else if cond = 11 then n != v
  else if cond = 12 then !z && (n == v)
  else if cond = 13 then z || (n != v)
  else if cond = 14 then true
  else false

/-- C2: for every 4-bit condition code and every combination of the N/Z/C/V
flag bits (256 cases), Cpu::check_condition returns exactly the boolean of
the specification's truth table. -/
theorem C2_condition_table :
    ∀ (cond : Fin 16) (n z c v : Bool),
      ({ Cpu.new with cpsr := flagsWord n z c v } : Cpu).check_condition cond.val =
        spec_condition_table cond.val n z c v := by
  decide

/-- C6: reading index 15 as an operand returns pc + 8 while indices 0..12 and
the sp/lr slots 13/14 read back their stored value unmodified; writing index
15 stores the value with its two low bits cleared (value AND 0xFFFFFFFC,
i.e. `value & !0b11`), while writes to 0..12, 13 and 14 store verbatim. -/
theorem C6_register_file (cpu : Cpu) (i v : Nat) (hi : i ≤ 12) :
    cpu.get_register i = cpu.registers i ∧
    cpu.get_register 13 = cpu.sp ∧
    cpu.get_register 14 = cpu.lr ∧
    cpu.get_register 15 = cpu.pc + 8 ∧
    (cpu.set_register i v).registers i = v ∧
    (cpu.set_register 13 v).sp = v ∧
    (cpu.set_register 14 v).lr = v ∧
    (cpu.set_register 15 v).pc = v &&& 0xFFFFFFFC := by
  unfold Cpu.get_register Cpu.set_register
  refine ⟨?_, rfl, rfl, rfl, ?_, rfl, rfl, rfl⟩
  · rw [if_pos hi]
  · rw [if_pos hi]
    simp

/-- C6 witness: the register-file contract at index 0 with the spec's
register-15 masking example, value 3 masking to 0. -/
theorem C6_register_file_witness :
    (0 : Nat) ≤ 12 ∧
    (Cpu.new.get_register 15 = Cpu.new.pc + 8 ∧ (Cpu.new.set_register 15 3).pc = 0) := by
  refine ⟨by norm_num, ?_, ?_⟩
  · exact (C6_register_file Cpu.new 0 3 (by norm_num)).2.2.2.1
  · have h := (C6_register_file Cpu.new 0 3 (by norm_num)).2.2.2.2.2.2.2
    rw [h]
    decide

/-- A single high bit tested through a mask, equality form. -/
theorem land_msb_eq_zero (x : Nat) : (x &&& 0x80000000 = 0) ↔ x.testBit 31 = false := by
  have h := land_msb_ne_zero x
  constructor
  · intro h0
    cases htb : x.testBit 31
    · rfl
    · exact absurd h0 ((h.mpr htb))
  · intro hf
    by_contra hne
    rw [h.mp hne] at hf
    cases hf

/-- C7: an ARM compare (data-processing opcode 0xA reached with a true
condition) writes no register, leaves the memory and pc untouched, and
recomputes all four flags in full: Z iff source minus operand wraps to 0, N
from bit 31 of the result, C iff operand is less than or equal to the source
(unsigned, no borrow), V always clear. -/
theorem C7_compare_flags (cpu : Cpu) (memory : Memory) (instruction : Nat)
    (hcond : cpu.check_condition ((instruction >>> 28) &&& 0xF) = true)
    (hb : (instruction >>> 25) &&& 0x7 ≠ 0x5)
    (hsdt : (instruction >>> 26) &&& 0x3 ≠ 0x1)
    (hop : (instruction >>> 21) &&& 0xF = 0xA) :
    (cpu.execute_arm instruction memory).2 = memory ∧
    (cpu.execute_arm instruction memory).1.registers = cpu.registers ∧
    (cpu.execute_arm instruction memory).1.sp = cpu.sp ∧
    (cpu.execute_arm instruction memory).1.lr = cpu.lr ∧
    (cpu.execute_arm instruction memory).1.pc = cpu.pc ∧
    ((cpu.execute_arm instruction memory).1.cpsr.testBit 30 =
      decide (u32_wrapping_sub (cpu.get_register ((instruction >>> 16) &&& 0xF))
        (cpu.get_data_processing_operand instruction) = 0)) ∧
    ((cpu.execute_arm instruction memory).1.cpsr.testBit 31 =
      (u32_wrapping_sub (cpu.get_register ((instruction >>> 16) &&& 0xF))
        (cpu.get_data_processing_operand instruction)).testBit 31) ∧
    ((cpu.execute_arm instruction memory).1.cpsr.testBit 29 =
      decide (cpu.get_data_processing_operand instruction ≤
        cpu.get_register ((instruction >>> 16) &&& 0xF))) ∧
    (cpu.execute_arm instruction memory).1.cpsr.testBit 28 = false := by
  have hmsb1 := land_msb_ne_zero (u32_wrapping_sub
    (cpu.get_register ((instruction >>> 16) &&& 0xF))
    (cpu.get_data_processing_operand instruction))
  have hrhs : (u32_wrapping_sub (cpu.get_register ((instruction >>> 16) &&& 0xF))
      (cpu.get_data_processing_operand instruction)).testBit 31 =
      decide (u32_wrapping_sub (cpu.get_register ((instruction >>> 16) &&& 0xF))
        (cpu.get_data_processing_operand instruction) &&& 0x80000000 ≠ 0) := by
    by_cases h : u32_wrapping_sub (cpu.get_register ((instruction >>> 16) &&& 0xF))
        (cpu.get_data_processing_operand instruction) &&& 0x80000000 ≠ 0
    · simp [h, hmsb1.mp h]
    · cases htb : (u32_wrapping_sub (cpu.get_register ((instruction >>> 16) &&& 0xF))
          (cpu.get_data_processing_operand instruction)).testBit 31
      · simp [h]
      · exact absurd (hmsb1.mpr htb) h
  rw [hrhs]
  unfold Cpu.execute_arm
  rw [if_neg (by simp [hcond]), if_neg hb, if_neg hsdt]
  simp only [hop]
  norm_num
  have m28 : Nat.testBit 0x0FFFFFFF 28 = false := by decide
  have m29 : Nat.testBit 0x0FFFFFFF 29 = false := by decide
  have m30 : Nat.testBit 0x0FFFFFFF 30 = false := by decide
  have m31 : Nat.testBit 0x0FFFFFFF 31 = false := by decide
  have s2929 : Nat.testBit (1 <<< 29) 29 = true := by decide
  have s2930 : Nat.testBit (1 <<< 29) 30 = false := by decide
  have s2931 : Nat.testBit (1 <<< 29) 31 = false := by decide
  have s2928 : Nat.testBit (1 <<< 29) 28 = false := by decide
  have s3029 : Nat.testBit (1 <<< 30) 29 = false := by decide
  have s3030 : Nat.testBit (1 <<< 30) 30 = true := by decide
  have s3031 : Nat.testBit (1 <<< 30) 31 = false := by decide
  have s3028 : Nat.testBit (1 <<< 30) 28 = false := by decide
  have s3129 : Nat.testBit (1 <<< 31) 29 = false := by decide
  have s3130 : Nat.testBit (1 <<< 31) 30 = false := by decide
  have s3131 : Nat.testBit (1 <<< 31) 31 = true := by decide
  have s3128 : Nat.testBit (1 <<< 31) 28 = false := by decide
  by_cases hz : u32_wrapping_sub (cpu.get_register ((instruction >>> 16) &&& 0xF))
      (cpu.get_data_processing_operand instruction) = 0 <;>
    by_cases hn : u32_wrapping_sub (cpu.get_register ((instruction >>> 16) &&& 0xF))
      (cpu.get_data_processing_operand instruction) &&& 0x80000000 = 0 <;>
    by_cases hc : cpu.get_data_processing_operand instruction ≤
      cpu.get_register ((instruction >>> 16) &&& 0xF) <;>
    simp [hz, hn, hc, Nat.testBit_or, Nat.testBit_and, m28, m29, m30, m31,
      s2928, s2929, s2930, s2931, s3028, s3029, s3030, s3031, s3128, s3129, s3130, s3131,
      ge_iff_le] <;>
    decide

/-- The concrete CPU state for the compare example: r1 = 5, all four flag
bits stale-set, condition field AL. -/
def cmp_witness_cpu : Cpu :=
  { Cpu.new with
      registers := (fun i => if i = 1 then 5 else 0),
      cpsr := 0xF000001F }

/-- C7 witness: CMP r1, #5 with r1 = 5 (instruction 0xE3510005) and all four
flags stale-set beforehand: afterwards Z is set, N clear, C set, V clear. -/
theorem C7_compare_flags_witness :
    cmp_witness_cpu.check_condition ((0xE3510005 >>> 28) &&& 0xF) = true ∧
    (0xE3510005 >>> 25) &&& 0x7 ≠ 0x5 ∧
    (0xE3510005 >>> 26) &&& 0x3 ≠ 0x1 ∧
    (0xE3510005 >>> 21) &&& 0xF = 0xA ∧
    (cmp_witness_cpu.execute_arm 0xE3510005 Memory.new).1.cpsr.testBit 30 = true ∧
    (cmp_witness_cpu.execute_arm 0xE3510005 Memory.new).1.cpsr.testBit 31 = false ∧
    (cmp_witness_cpu.execute_arm 0xE3510005 Memory.new).1.cpsr.testBit 29 = true ∧
    (cmp_witness_cpu.execute_arm 0xE3510005 Memory.new).1.cpsr.testBit 28 = false := by
  have h := C7_compare_flags cmp_witness_cpu Memory.new 0xE3510005
    (by decide) (by decide) (by decide) (by decide)
  refine ⟨by decide, by decide, by decide, by decide, ?_, ?_, ?_, ?_⟩
  · rw [h.2.2.2.2.2.1]
    decide
  · rw [h.2.2.2.2.2.2.1]
    decide
  · rw [h.2.2.2.2.2.2.2.1]
    decide
  · exact h.2.2.2.2.2.2.2.2

/-- C8 counterexample: instruction 0xE5910004 (LDR r1, [r1, #4]) has bit 25
clear, yet its single-data-transfer offset is the 12-bit immediate 4, not
zero — the offset is zeroed when bit 25 is set, the reverse of the claim. -/
theorem C8_offset_counterexample :
    (0xE5910004 >>> 25) &&& 1 = 0 ∧ sdt_offset 0xE5910004 = 4 ∧ sdt_offset 0xE5910004 ≠ 0 := by
  decide

/-- C8 (amended): in the ARM single data transfer the effective address is
the base register value plus-or-minus the offset (modulo 2^32), where the
offset is the instruction's 12-bit immediate when bit 25 is clear, and is
treated as zero when bit 25 is set (register-offset forms not yet
implemented). -/
theorem C8_sdt_offset_address (cpu : Cpu) (instruction : Nat) :
    ((instruction >>> 25) &&& 1 = 0 → sdt_offset instruction = instruction &&& 0xFFF) ∧
    ((instruction >>> 25) &&& 1 = 1 → sdt_offset instruction = 0) ∧
    ((instruction >>> 24) &&& 1 = 1 → (instruction >>> 23) &&& 1 = 1 →
      cpu.sdt_address instruction =
        (cpu.get_register ((instruction >>> 16) &&& 0xF) + sdt_offset instruction) % 2 ^ 32) ∧
    ((instruction >>> 24) &&& 1 = 1 → (instruction >>> 23) &&& 1 = 0 →
      cpu.sdt_address instruction =
        (cpu.get_register ((instruction >>> 16) &&& 0xF) +
          (2 ^ 32 - sdt_offset instruction)) % 2 ^ 32) := by
  have hoffle : sdt_offset instruction < 2 ^ 32 := by
    unfold sdt_offset
    have h := Nat.and_pow_two_sub_one_eq_mod instruction 12
    norm_num at h
    split
    · norm_num
    · omega
  refine ⟨?_, ?_, ?_, ?_⟩
  · intro h
    unfold sdt_offset
    rw [if_neg (by omega)]
  · intro h
    unfold sdt_offset
    rw [if_pos h]
  · intro hpre hup
    unfold Cpu.sdt_address sdt_signed_offset u32_wrapping_add
    rw [if_pos hpre, if_pos hup]
  · intro hpre hup
    unfold Cpu.sdt_address sdt_signed_offset u32_wrapping_add u32_wrapping_sub
    rw [if_pos hpre, if_neg (by omega)]
    have hmod : sdt_offset instruction % 2 ^ 32 = sdt_offset instruction := by omega
    rw [hmod]
    omega

/-- C8 witness: the amended offset rule applied to a concrete
immediate-offset load (bit 25 clear, offset 4) and to a concrete
register-form encoding (bit 25 set, offset forced to 0), plus the
pre-indexed add address at a concrete CPU state. -/
theorem C8_sdt_offset_address_witness :
    sdt_offset 0xE5910004 = 0xE5910004 &&& 0xFFF ∧
    sdt_offset 0xE7910002 = 0 ∧
    Cpu.new.sdt_address 0xE5910004 = (Cpu.new.get_register 1 + 4) % 2 ^ 32 := by
  refine ⟨(C8_sdt_offset_address Cpu.new 0xE5910004).1 (by decide),
    (C8_sdt_offset_address Cpu.new 0xE7910002).2.1 (by decide), ?_⟩
  have h := (C8_sdt_offset_address Cpu.new 0xE5910004).2.2.1 (by decide) (by decide)
  rw [h]
  decide

/-- Condition evaluation only reads the cpsr flags word. -/
theorem check_condition_eq_of_cpsr (c1 c2 : Cpu) (h : c1.cpsr = c2.cpsr) (x : Nat) :
    c1.check_condition x = c2.check_condition x := by
  unfold Cpu.check_condition
  rw [h]

/-- C1 (amended): one step on an ARM word with bits 27..25 = 0b101, link bit
clear and 24-bit offset field 1, starting the step at pc = 0x08000000 with a
true condition, leaves pc = 0x0800000C: the fetch advance (+4), the pipeline
constant (+4) and the shifted offset (+4) all apply. -/
theorem C1_branch_step (cpu : Cpu) (memory : Memory)
    (hthumb : cpu.thumb_mode = false)
    (hpc : cpu.pc = 0x08000000)
    (hbits : (memory.read_u32 0x08000000 >>> 25) &&& 0x7 = 0x5)
    (hlink : (memory.read_u32 0x08000000 >>> 24) &&& 1 = 0)
    (hoff : memory.read_u32 0x08000000 &&& 0xFFFFFF = 1)
    (hcond : cpu.check_condition ((memory.read_u32 0x08000000 >>> 28) &&& 0xF) = true) :
    (cpu.step memory).1.pc = 0x0800000C := by
  have hstep : cpu.step memory =
      Cpu.execute_arm { cpu with pc := cpu.pc + 4 } (memory.read_u32 cpu.pc) memory := by
    unfold Cpu.step
    dsimp only
    rw [hthumb]
    simp
  rw [hstep, hpc]
  unfold Cpu.execute_arm
  have hcond2 : ∀ p : Nat, ({ cpu with pc := p } : Cpu).check_condition
      ((memory.read_u32 0x08000000 >>> 28) &&& 0xF) = true := fun _ => hcond
  rw [if_neg (by simp [hcond2]), if_pos hbits]
  unfold Cpu.execute_branch
  dsimp only
  rw [if_neg (by omega)]
  simp only [hoff]
  norm_num
  unfold i32_of_bits u32_of_int
  norm_num
  decide

/-- C1 counterexample: the concrete branch 0xEA000001 (condition AL, bits
27..25 = 0b101, link clear, offset field 1) placed at 0x08000000 and stepped
from the reset state (pc = 0x08000000) leaves pc = 0x0800000C, not the
0x08000008 the claim states. -/
theorem C1_branch_counterexample :
    ({ Memory.new with rom := [0x01, 0x00, 0x00, 0xEA] } : Memory).read_u32 0x08000000 =
      0xEA000001 ∧
    (0xEA000001 >>> 25) &&& 0x7 = 0x5 ∧
    (0xEA000001 >>> 24) &&& 1 = 0 ∧
    0xEA000001 &&& 0xFFFFFF = 1 ∧
    Cpu.new.check_condition ((0xEA000001 >>> 28) &&& 0xF) = true ∧
    Cpu.new.pc = 0x08000000 ∧
    (Cpu.new.step { Memory.new with rom := [0x01, 0x00, 0x00, 0xEA] }).1.pc = 0x0800000C ∧
    (Cpu.new.step { Memory.new with rom := [0x01, 0x00, 0x00, 0xEA] }).1.pc ≠ 0x08000008 := by
  decide

/-- C1 witness: the amended step theorem applied to the concrete branch
0xEA000001 at the reset state. -/
theorem C1_branch_step_witness :
    Cpu.new.thumb_mode = false ∧ Cpu.new.pc = 0x08000000 ∧
    (Cpu.new.step { Memory.new with rom := [0x01, 0x00, 0x00, 0xEA] }).1.pc = 0x0800000C := by
  refine ⟨rfl, rfl, ?_⟩
  exact C1_branch_step Cpu.new { Memory.new with rom := [0x01, 0x00, 0x00, 0xEA] }
    rfl rfl (by decide) (by decide) (by decide) (by decide)

/-- C9 counterexample: when the file opens but reading then fails (bytes read
so far: none), the image buffer has already been cleared, so the failure case
does mutate state: the old one-byte image [1] is gone afterwards. -/
theorem C9_load_counterexample :
    (({ Memory.new with rom := [1] } : Memory).load_rom ⟨true, [], true⟩).2 = false ∧
    ({ Memory.new with rom := [1] } : Memory).rom = [1] ∧
    (({ Memory.new with rom := [1] } : Memory).load_rom ⟨true, [], true⟩).1.rom = [] ∧
    (([] : List Nat) ≠ [1]) := by
  decide

/-- C9 (amended): cartridge image load either succeeds and replaces the owned
image buffer wholesale with the file's bytes, or fails: an open failure
(file missing/unreadable) returns the state completely unchanged, but a read
failure after a successful open leaves the buffer already cleared, holding
exactly the bytes read before the error; in every case no other memory
region is changed. -/
theorem C9_load_rom (m : Memory) (f : RomFile) :
    ((m.load_rom f).2 = true → (m.load_rom f).1.rom = f.bytes) ∧
    (f.openOk = false → m.load_rom f = (m, false)) ∧
    (f.openOk = true → f.readErr = true →
      (m.load_rom f).2 = false ∧ (m.load_rom f).1.rom = f.bytes) ∧
    ((m.load_rom f).1.bios = m.bios ∧ (m.load_rom f).1.ewram = m.ewram ∧
      (m.load_rom f).1.iwram = m.iwram ∧ (m.load_rom f).1.vram = m.vram ∧
      (m.load_rom f).1.palette_ram = m.palette_ram ∧ (m.load_rom f).1.oam = m.oam) := by
  unfold Memory.load_rom
  refine ⟨?_, ?_, ?_, ?_⟩
  · intro hs
    by_cases ho : f.openOk = true
    · rw [if_pos ho]
    · rw [if_neg ho] at hs
      cases hs
  · intro ho
    rw [ho]
    simp
  · intro ho hr
    rw [ho, hr]
    simp
  · by_cases ho : f.openOk = true
    · rw [if_pos ho]
      exact ⟨rfl, rfl, rfl, rfl, rfl, rfl⟩
    · rw [if_neg ho]
      exact ⟨rfl, rfl, rfl, rfl, rfl, rfl⟩

/-- C9 witness: a successful load replacing a one-byte image by [2, 3], and a
failed open leaving the state untouched. -/
theorem C9_load_rom_witness :
    ((({ Memory.new with rom := [1] } : Memory).load_rom ⟨true, [2, 3], false⟩).2 = true →
      (({ Memory.new with rom := [1] } : Memory).load_rom ⟨true, [2, 3], false⟩).1.rom =
        [2, 3]) ∧
    (({ Memory.new with rom := [1] } : Memory).load_rom ⟨false, [], false⟩ =
      ({ Memory.new with rom := [1] }, false)) := by
  constructor
  · exact (C9_load_rom { Memory.new with rom := [1] } ⟨true, [2, 3], false⟩).1
  · exact (C9_load_rom { Memory.new with rom := [1] } ⟨false, [], false⟩).2.1 rfl
